import Mathlib

/-!
Shallow embedding of `flashbot.go` (package `flashbot`): a client for
submitting signed transaction bundles to a Flashbots-style relay over
JSON-RPC/HTTP.

Modelling conventions:
  * Go strings are Lean `String`s, byte slices are `List Nat` (each byte
    taken mod 256 where its numeric value matters), `uint64` is `Nat`,
    Go `int`/`int64` is `Int`.
  * The external collaborators (go-ethereum crypto, `encoding/json`, the
    HTTP stack) are a `Backend` record of executable functions plus a
    `TransportEnv` describing what a single HTTP round trip returns;
    everything written in `flashbot.go` itself is translated directly.
  * Go errors are the exact strings the source builds with
    `errors.New` / `errors.Wrap` / `errors.Errorf` (`errors.Wrap(err, m)`
    renders as `m ++ ": " ++ err`).
  * Go slice semantics: `r := RequestSend` copies the struct but the
    `Params` slice header still points at the shared backing array, so
    writes through `r.Params[0]` mutate the package-level template.  The
    three backing arrays are modelled as an explicit `Templates` state
    threaded through the public operations.
-/

deriving instance DecidableEq for Except

namespace flashbot

/-- `type Params struct` of flashbot.go. -/
structure Params where
  txs : List String
  blockNumber : String
  stateBlockNumber : String
  bundleHash : String
deriving DecidableEq, Repr

/-- Go zero value of `Params`. -/
def defaultParams : Params := ⟨[], "", "", ""⟩

/-- `type Request struct` of flashbot.go. -/
structure Request where
  jsonrpc : String
  id : Int
  method : String
  params : List Params
deriving DecidableEq, Repr

/-- `type Metadata struct` of flashbot.go. -/
structure Metadata where
  coinbaseDiff : String
  ethSentToCoinbase : String
  gasFees : String
deriving DecidableEq, Repr

/-- `type TxResult struct` of flashbot.go. -/
structure TxResult where
  metadata : Metadata
  fromAddress : String
  gasPrice : String
  txHash : String
  error : String
  revert : String
  gasUsed : Nat
deriving DecidableEq, Repr

/-- Go zero value of `TxResult`. -/
def defaultTxResult : TxResult := ⟨⟨"", "", ""⟩, "", "", "", "", "", 0⟩

/-- `type Result struct` of flashbot.go. -/
structure Result where
  bundleGasPrice : String
  bundleHash : String
  metadata : Metadata
  results : List TxResult
deriving DecidableEq, Repr

/-- `type Error struct` of flashbot.go (the relay-level error object). -/
structure Error where
  code : Int
  message : String
deriving DecidableEq, Repr

/-- `type Response struct` of flashbot.go (embedded `Error` and `Result`). -/
structure Response where
  error : Error
  result : Result
deriving DecidableEq, Repr

/-- `type BundleStats struct` of flashbot.go (`time.Time` values are opaque). -/
structure BundleStats where
  isSimulated : Bool
  isHighPriority : Bool
  simulatedAt : Nat
  submittedAt : Nat
  sentToMinersAt : Nat
deriving DecidableEq, Repr

/-- `type ResultBundleStats struct` of flashbot.go. -/
structure ResultBundleStats where
  error : Error
  result : BundleStats
deriving DecidableEq, Repr

/-! ### Hex encoding (go-ethereum `hexutil`, `strconv` with base 16) -/

/-- The lowercase hex digit table used by Go's hex formatting
(`const hextable = "0123456789abcdef"`). -/
def hextable : List Char := "0123456789abcdef".data

/-- One lowercase hex digit. -/
def hexDigit (n : Nat) : Char := hextable.getD (n % 16) '0'

/-- `strconv.AppendUint(_, n, 16)`: lowercase hex, no leading zeros, 0 ↦ "0". -/
def natToHex (n : Nat) : String := String.mk (Nat.toDigits 16 n)

/-- `hexutil.EncodeUint64`: `"0x" + %x`. -/
def hexEncodeUint64 (n : Nat) : String := "0x" ++ natToHex n

/-- The two hex characters of one byte. -/
def byteHexChars (b : Nat) : List Char := [hexDigit (b % 256 / 16), hexDigit (b % 16)]

/-- `hexutil.Encode`: `"0x"` followed by two lowercase hex digits per byte. -/
def hexEncodeBytes (bs : List Nat) : String :=
  "0x" ++ String.mk (bs.flatMap byteHexChars)

/-! ### Request templates (package-level vars) and their mutable backing arrays -/

/-- `var RequestSend` of flashbot.go (initial value). -/
def RequestSend : Request :=
  { jsonrpc := "2.0", id := 1, method := "eth_sendBundle", params := [defaultParams] }

/-- `var RequestCall` of flashbot.go (initial value). -/
def RequestCall : Request :=
  { jsonrpc := "2.0", id := 1, method := "eth_callBundle",
    params := [{ defaultParams with stateBlockNumber := "latest" }] }

/-- `var RequestBundleStats` of flashbot.go (initial value). -/
def RequestBundleStats : Request :=
  { jsonrpc := "2.0", id := 1, method := "flashbots_getBundleStats",
    params := [defaultParams] }

/-- The current contents of the three templates' `Params` backing arrays.
`r := RequestSend` copies the struct but shares the slice backing array, so
an assignment to `r.Params[0]` writes through to the template; the scalar
fields (`Jsonrpc`, `Id`, `Method`) are copied by value and never written. -/
structure Templates where
  send : List Params
  call : List Params
  stats : List Params
deriving DecidableEq, Repr

/-- The backing arrays as initialised by the package-level declarations. -/
def initTemplates : Templates :=
  { send := RequestSend.params, call := RequestCall.params,
    stats := RequestBundleStats.params }

/-- Request-construction phase of `SendBundle` (lines 148–151): copy the
`RequestSend` template, then write `BlockNumber` and `Txs` through the shared
`Params` backing array. Returns the request that will be serialized and the
updated backing arrays. -/
def sendBundleBuild (st : Templates) (txsHex : List String) (blockNumber : Nat) :
    Request × Templates :=
  let p0 := st.send.headD defaultParams
  let p0 := { p0 with blockNumber := hexEncodeUint64 blockNumber }
  let p0 := { p0 with txs := txsHex }
  let send' := st.send.set 0 p0
  ({ RequestSend with params := send' }, { st with send := send' })

/-- The hardcoded simulation block number of `CallBundle` (line 166). -/
def blockDummy : Nat := 100000000000000

/-- Request-construction phase of `CallBundle` (lines 164–169). -/
def callBundleBuild (st : Templates) (txsHex : List String) :
    Request × Templates :=
  let p0 := st.call.headD defaultParams
  let p0 := { p0 with txs := txsHex }
  let p0 := { p0 with blockNumber := hexEncodeUint64 blockDummy }
  let call' := st.call.set 0 p0
  ({ RequestCall with params := call' }, { st with call := call' })

/-- Request-construction phase of `GetBundleStats` (lines 183–185). -/
def getBundleStatsBuild (st : Templates) (bundleHash : String) (blockNumber : Nat) :
    Request × Templates :=
  let p0 := st.stats.headD defaultParams
  let p0 := { p0 with bundleHash := bundleHash }
  let p0 := { p0 with blockNumber := hexEncodeUint64 blockNumber }
  let stats' := st.stats.set 0 p0
  ({ RequestBundleStats with params := stats' }, { st with stats := stats' })

/-! ### External collaborators: go-ethereum crypto, `encoding/json`, HTTP -/

/-- Opaque model of `*ecdsa.PrivateKey`. -/
structure PrivateKey where
  d : Nat
deriving DecidableEq, Repr

/-- The external library functions the source calls, as executable
parameters: `crypto.Keccak256`, `crypto.PubkeyToAddress` (composed with
`prvKey.Public()`), `crypto.Sign`, `json.Marshal` and the two
`json.Unmarshal` target shapes. -/
structure Backend where
  keccak256 : List Nat → List Nat
  pubkeyToAddress : PrivateKey → List Nat
  ecdsaSign : List Nat → PrivateKey → Except String (List Nat)
  marshal : Request → Except String String
  unmarshalResponse : String → Except String Response
  unmarshalStats : String → Except String ResultBundleStats

/-- What one HTTP round trip (`mevHTTPClient.Do`) returned: the status line,
the outcome of the first `ioutil.ReadAll(resp.Body)`, the outcome of the
second `ReadAll` performed in the non-2xx branch, and of `resp.Body.Close()`. -/
structure HttpResp where
  statusCode : Nat
  status : String
  readBody : Except String String
  readBody2 : Except String String
  closeBody : Except String Unit

/-- The HTTP transport: given the target URL, the serialized payload and the
`X-Flashbots-Signature` header value, either a network-level failure or a
response. -/
structure TransportEnv where
  send : String → String → String → Except String HttpResp

/-- `type Flashbot struct` of flashbot.go. -/
structure Flashbot where
  netID : Int
  prvKey : Option PrivateKey
  publicAddr : Option (List Nat)
  url : String

/-- `errors.Wrap(err, msg)` renders its message as `msg ++ ": " ++ err`. -/
def wrap (cause msg : String) : String := msg ++ ": " ++ cause

/-- `func relayURLDefault` (lines 354–363). -/
def relayURLDefault (id : Int) : Except String String :=
  if id = 1 then .ok "https://relay.flashbots.net"
  else if id = 5 then .ok "https://relay-goerli.flashbots.net"
  else .error ("network id not supported id:" ++ toString id)

/-- `func (self *Flashbot) SetKeys` (lines 132–142).  The Go type assertion
`publicKey.(*ecdsa.PublicKey)` always succeeds for an ECDSA key, so the
"casting public key to ECDSA" branch is unreachable; the function stores the
key and the derived address on the client.  Returns the updated client
together with the `error` result. -/
def SetKeys (b : Backend) (fb : Flashbot) (prvKey : PrivateKey) :
    Flashbot × Except String Unit :=
  ({ fb with prvKey := some prvKey,
             publicAddr := some (b.pubkeyToAddress prvKey) }, .ok ())

/-- `func New` (lines 119–130): build the client; when a key is supplied,
also run `SetKeys` on it. -/
def New (b : Backend) (netID : Int) (prvKey : Option PrivateKey) (url : String) :
    Flashbot × Except String Unit :=
  let fb : Flashbot := { netID := netID, prvKey := none, publicAddr := none, url := url }
  match prvKey with
  | some k => SetKeys b fb k
  | none => (fb, .ok ())

/-- UTF-8 bytes of an (ASCII) Go string. -/
def strBytes (s : String) : List Nat := s.data.map Char.toNat

/-- `accounts.TextHash(data)`: keccak256 of
`"\x19Ethereum Signed Message:\n" + len(data) + data`. -/
def textHash (keccak : List Nat → List Nat) (data : List Nat) : List Nat :=
  keccak (strBytes ("\x19Ethereum Signed Message:\n" ++ toString data.length) ++ data)

/-- One step of go-ethereum's `Address.checksumHex` loop: uppercase a hex
character (`c -= 32`) when it is above `'9'` and the corresponding keccak
nibble is above 7. -/
def checksumChar (c : Char) (nibble : Nat) : Char :=
  if 57 < c.toNat ∧ 7 < nibble then Char.ofNat (c.toNat - 32) else c

/-- The keccak nibble governing hex character `j` (high nibble of byte `j/2`
for even `j`, low nibble for odd `j`). -/
def checksumNibble (hash : List Nat) (j : Nat) : Nat :=
  let hb := hash.getD (j / 2) 0 % 256
  if j % 2 = 0 then hb / 16 else hb % 16

/-- The checksum loop over the 40 hex characters. -/
def checksumAux (hash : List Nat) : Nat → List Char → List Char
  | _, [] => []
  | j, c :: cs => checksumChar c (checksumNibble hash j) :: checksumAux hash (j + 1) cs

/-- go-ethereum `common.Address.Hex()`: `"0x"` plus the lowercase hex of the
address bytes with EIP-55 checksum capitalisation driven by the keccak hash
of that hex string. -/
def addressHex (keccak : List Nat → List Nat) (addr : List Nat) : String :=
  let body := addr.flatMap byteHexChars
  let hash := keccak (body.map Char.toNat)
  "0x" ++ String.mk (checksumAux hash 0 body)

/-- `func (self *Flashbot) signPayload` (lines 338–352): refuse when no key
is configured, otherwise sign
`TextHash(hexutil.Encode(Keccak256(payload)))` and return
`publicAddr.Hex() + ":" + hexutil.Encode(signature)`. -/
def signPayload (b : Backend) (fb : Flashbot) (payload : String) :
    Except String String :=
  match fb.prvKey, fb.publicAddr with
  | some key, some addr =>
    match b.ecdsaSign (textHash b.keccak256
        (strBytes (hexEncodeBytes (b.keccak256 (strBytes payload))))) key with
    | .error e => .error (wrap e "sign the payload")
    | .ok signature =>
      .ok (addressHex b.keccak256 addr ++ ":" ++ hexEncodeBytes signature)
  | _, _ => .error "private key is not set"

/-- `func (self *Flashbot) req` (lines 228–276), with the number of HTTP
round trips (`mevHTTPClient.Do` invocations) made explicit in the result.
`http.NewRequest` with method `"POST"` and a well-formed URL cannot fail and
is not a separate failure point. -/
def req (b : Backend) (fb : Flashbot) (r : Request) (url : String)
    (env : TransportEnv) : Except String String × Nat :=
  match b.marshal r with
  | .error e => (.error (wrap e "marshaling flashbot tx params"), 0)
  | .ok payload =>
    match (if url = "" then relayURLDefault fb.netID else .ok url) with
    | .error e => (.error (wrap e "get flashboat relay url"), 0)
    | .ok url' =>
      match signPayload b fb payload with
      | .error e => (.error (wrap e "signing flashbot request"), 0)
      | .ok signedP =>
        match env.send url' payload signedP with
        | .error e => (.error (wrap e "flashbot request"), 1)
        | .ok resp =>
          match resp.readBody with
          | .error e => (.error (wrap e "reading flashbot reply"), 1)
          | .ok res =>
            if resp.statusCode / 100 ≠ 2 then
              match resp.readBody2 with
              | .error _ => (.error ("bad response status " ++ resp.status), 1)
              | .ok rbody =>
                (.error ("bad response resp status:" ++ resp.status ++
                  "  respBody:" ++ rbody ++ res ++ " reqMethod:" ++ r.method), 1)
            else
              match resp.closeBody with
              | .error e => (.error (wrap e "closing flashboat reply body"), 1)
              | .ok _ => (.ok res, 1)

/-- Go `fmt` rendering `%+v` of the `Error` struct. -/
def errorShow (e : Error) : String :=
  "\x7bCode:" ++ toString e.code ++ " Message:" ++ e.message ++ "\x7d"

/-- `func parseResp` (lines 207–226): decode, then fail when the top-level
error code is non-zero or the first transaction result carries a non-empty
error string, appending the first result's details whenever the sequence is
non-empty. -/
def parseResp (b : Backend) (resp : String) (blockNum : Nat) :
    Except String Response :=
  match b.unmarshalResponse resp with
  | .error e => .error (wrap e "unmarshal flashbot call response")
  | .ok rr =>
    if rr.error.code ≠ 0 ∨
        (rr.result.results.length > 0 ∧
          (rr.result.results.headD defaultTxResult).error ≠ "") then
      let errStr := "flashbot request returned an error:" ++ errorShow rr.error ++
        "," ++ rr.error.message ++ " block:" ++ toString blockNum
      let errStr := if rr.result.results.length > 0 then
          errStr ++ " Result:" ++ (rr.result.results.headD defaultTxResult).error ++
          " , Revert:" ++ (rr.result.results.headD defaultTxResult).revert ++
          ", GasUsed:" ++ toString (rr.result.results.headD defaultTxResult).gasUsed
        else errStr
      .error errStr
    else
      .ok rr

/-- `func (self *Flashbot) SendBundle` (lines 144–159): build the request on
the shared template, round-trip through `req`, classify with `parseResp`.
Returns the outcome, the template state after the call, and the number of
HTTP round trips. -/
def SendBundle (b : Backend) (fb : Flashbot) (st : Templates)
    (txsHex : List String) (blockNumber : Nat) (env : TransportEnv) :
    Except String Response × Templates × Nat :=
  let built := sendBundleBuild st txsHex blockNumber
  match req b fb built.1 fb.url env with
  | (.error e, n) => (.error (wrap e "flashbot send request"), built.2, n)
  | (.ok resp, n) => (parseResp b resp blockNumber, built.2, n)

/-- `func (self *Flashbot) CallBundle` (lines 161–177). -/
def CallBundle (b : Backend) (fb : Flashbot) (st : Templates)
    (txsHex : List String) (env : TransportEnv) :
    Except String Response × Templates × Nat :=
  let built := callBundleBuild st txsHex
  match req b fb built.1 fb.url env with
  | (.error e, n) => (.error (wrap e "flashbot call request"), built.2, n)
  | (.ok resp, n) => (parseResp b resp blockDummy, built.2, n)

/-- `func (self *Flashbot) GetBundleStats` (lines 179–205). -/
def GetBundleStats (b : Backend) (fb : Flashbot) (st : Templates)
    (bundleHash : String) (blockNumber : Nat) (env : TransportEnv) :
    Except String ResultBundleStats × Templates × Nat :=
  let built := getBundleStatsBuild st bundleHash blockNumber
  match req b fb built.1 fb.url env with
  | (.error e, n) => (.error (wrap e "flashbot call request"), built.2, n)
  | (.ok resp, n) =>
    match b.unmarshalStats resp with
    | .error e => (.error (wrap e "unmarshal flashbot bundle stats response"), built.2, n)
    | .ok rr =>
      if rr.error.code ≠ 0 then
        (.error ("flashbot request returned an error:" ++ errorShow rr.error ++
          "," ++ rr.error.message), built.2, n)
      else
        (.ok rr, built.2, n)

/-! ### Call histories over the shared templates -/

/-- One public call, as far as the template state is concerned. -/
inductive Op where
  | send (txsHex : List String) (blockNumber : Nat)
  | call (txsHex : List String)
  | stats (bundleHash : String) (blockNumber : Nat)

/-- Template-state effect of one public call. -/
def applyOp (st : Templates) : Op → Templates
  | .send txsHex blockNumber => (sendBundleBuild st txsHex blockNumber).2
  | .call txsHex => (callBundleBuild st txsHex).2
  | .stats bundleHash blockNumber => (getBundleStatsBuild st bundleHash blockNumber).2

/-- Template state after a sequence of public calls. -/
def runOps (st : Templates) : List Op → Templates
  | [] => st
  | op :: ops => runOps (applyOp st op) ops

/-- Shape invariant of the template state: each backing array is a singleton
whose fields not written by its own method still hold their initial values. -/
def TemplatesInv (st : Templates) : Prop :=
  (∃ t bn, st.send = [⟨t, bn, "", ""⟩]) ∧
  (∃ t bn, st.call = [⟨t, bn, "latest", ""⟩]) ∧
  (∃ bn h, st.stats = [⟨[], bn, "", h⟩])

theorem templatesInv_init : TemplatesInv initTemplates :=
  ⟨⟨[], "", rfl⟩, ⟨[], "", rfl⟩, ⟨"", "", rfl⟩⟩

theorem sendBundleBuild_of_inv {st : Templates} (h : TemplatesInv st)
    (txsHex : List String) (blockNumber : Nat) :
    sendBundleBuild st txsHex blockNumber =
      ({ RequestSend with params := [⟨txsHex, hexEncodeUint64 blockNumber, "", ""⟩] },
       { st with send := [⟨txsHex, hexEncodeUint64 blockNumber, "", ""⟩] }) := by
  obtain ⟨⟨t, bn, hs⟩, -, -⟩ := h
  simp [sendBundleBuild, hs]

theorem callBundleBuild_of_inv {st : Templates} (h : TemplatesInv st)
    (txsHex : List String) :
    callBundleBuild st txsHex =
      ({ RequestCall with params := [⟨txsHex, hexEncodeUint64 blockDummy, "latest", ""⟩] },
       { st with call := [⟨txsHex, hexEncodeUint64 blockDummy, "latest", ""⟩] }) := by
  obtain ⟨-, ⟨t, bn, hc⟩, -⟩ := h
  simp [callBundleBuild, hc]

theorem getBundleStatsBuild_of_inv {st : Templates} (h : TemplatesInv st)
    (bundleHash : String) (blockNumber : Nat) :
    getBundleStatsBuild st bundleHash blockNumber =
      ({ RequestBundleStats with
          params := [⟨[], hexEncodeUint64 blockNumber, "", bundleHash⟩] },
       { st with stats := [⟨[], hexEncodeUint64 blockNumber, "", bundleHash⟩] }) := by
  obtain ⟨-, -, ⟨bn, hh, hs⟩⟩ := h
  simp [getBundleStatsBuild, hs]

theorem templatesInv_applyOp {st : Templates} (h : TemplatesInv st) (op : Op) :
    TemplatesInv (applyOp st op) := by
  obtain ⟨⟨ts, bs, hs⟩, ⟨tc, bc, hc⟩, ⟨bb, hb, hst⟩⟩ := h
  cases op with
  | send txsHex blockNumber =>
    rw [applyOp, sendBundleBuild_of_inv ⟨⟨ts, bs, hs⟩, ⟨tc, bc, hc⟩, ⟨bb, hb, hst⟩⟩]
    exact ⟨⟨_, _, rfl⟩, ⟨tc, bc, hc⟩, ⟨bb, hb, hst⟩⟩
  | call txsHex =>
    rw [applyOp, callBundleBuild_of_inv ⟨⟨ts, bs, hs⟩, ⟨tc, bc, hc⟩, ⟨bb, hb, hst⟩⟩]
    exact ⟨⟨ts, bs, hs⟩, ⟨_, _, rfl⟩, ⟨bb, hb, hst⟩⟩
  | stats bundleHash blockNumber =>
    rw [applyOp, getBundleStatsBuild_of_inv ⟨⟨ts, bs, hs⟩, ⟨tc, bc, hc⟩, ⟨bb, hb, hst⟩⟩]
    exact ⟨⟨ts, bs, hs⟩, ⟨tc, bc, hc⟩, ⟨_, _, rfl⟩⟩

theorem templatesInv_runOps (ops : List Op) {st : Templates} (h : TemplatesInv st) :
    TemplatesInv (runOps st ops) := by
  induction ops generalizing st with
  | nil => exact h
  | cons op ops ih => exact ih (templatesInv_applyOp h op)

/-! ### Concrete fixtures for evaluation -/

/-- A concrete private key. -/
def keyW : PrivateKey := ⟨1⟩

/-- A concrete, fully executable backend. -/
def bW : Backend :=
  { keccak256 := fun l => [l.length % 256, 7],
    pubkeyToAddress := fun k => [k.d % 256, 171],
    ecdsaSign := fun _ _ => .ok [1, 2],
    marshal := fun _ => .ok "payload",
    unmarshalResponse := fun _ => .error "unexpected end of JSON input",
    unmarshalStats := fun _ => .error "unexpected end of JSON input" }

/-- A client with a key and an explicit relay URL. -/
def fbW : Flashbot := (New bW 1 (some keyW) "http://relay.test").1

/-- A transport whose single round trip fails at the network level. -/
def envDown : TransportEnv := { send := fun _ _ _ => .error "connection refused" }

/-! ### C1: the shared request templates -/

theorem SendBundle_fst_congr {st st' : Templates} {txsHex : List String}
    {blockNumber : Nat} (b : Backend) (fb : Flashbot) (env : TransportEnv)
    (h : (sendBundleBuild st txsHex blockNumber).1 =
      (sendBundleBuild st' txsHex blockNumber).1) :
    (SendBundle b fb st txsHex blockNumber env).1 =
      (SendBundle b fb st' txsHex blockNumber env).1 := by
  simp only [SendBundle, h]
  rcases hX : req b fb (sendBundleBuild st' txsHex blockNumber).1 fb.url env with ⟨res, n⟩
  cases res <;> simp

theorem CallBundle_fst_congr {st st' : Templates} {txsHex : List String}
    (b : Backend) (fb : Flashbot) (env : TransportEnv)
    (h : (callBundleBuild st txsHex).1 = (callBundleBuild st' txsHex).1) :
    (CallBundle b fb st txsHex env).1 = (CallBundle b fb st' txsHex env).1 := by
  simp only [CallBundle, h]
  rcases hX : req b fb (callBundleBuild st' txsHex).1 fb.url env with ⟨res, n⟩
  cases res <;> simp

theorem GetBundleStats_fst_congr {st st' : Templates} {bundleHash : String}
    {blockNumber : Nat} (b : Backend) (fb : Flashbot) (env : TransportEnv)
    (h : (getBundleStatsBuild st bundleHash blockNumber).1 =
      (getBundleStatsBuild st' bundleHash blockNumber).1) :
    (GetBundleStats b fb st bundleHash blockNumber env).1 =
      (GetBundleStats b fb st' bundleHash blockNumber env).1 := by
  simp only [GetBundleStats, h]
  rcases hX : req b fb (getBundleStatsBuild st' bundleHash blockNumber).1 fb.url env
    with ⟨res, n⟩
  cases res with
  | error e => simp
  | ok body =>
    rcases hU : b.unmarshalStats body with e | rr
    · simp [hU]
    · by_cases hc : rr.error.code = 0 <;> simp [hU, hc]

/-- C1 (counterexample): the claim says that after any call the package-level
template `RequestSend` still holds its initial values.  It does not: the Go
struct copy `r := RequestSend` shares the `Params` slice backing array, so
`SendBundle`'s writes to `r.Params[0]` mutate the template in place — after
one `SendBundle` call the template state differs from its initial value. -/
theorem sendBundle_mutates_template :
    (SendBundle bW fbW initTemplates ["0x01"] 1 envDown).2.1 ≠ initTemplates := by
  decide

/-- C1 (amended): the template copy is shallow, so per-call writes land in the
shared `Params` backing arrays and persist across calls; however each
operation overwrites every per-call field it serializes and no operation
reads a field another operation writes, so after any history of calls the
request a call constructs (and hence everything sent on the wire) is exactly
the one it would construct from the initial template state — no field value
set during one call is visible in a later call's request. -/
theorem requests_independent_of_history (ops : List Op) (txsHex : List String)
    (blockNumber : Nat) (bundleHash : String) :
    (sendBundleBuild (runOps initTemplates ops) txsHex blockNumber).1 =
      (sendBundleBuild initTemplates txsHex blockNumber).1 ∧
    (callBundleBuild (runOps initTemplates ops) txsHex).1 =
      (callBundleBuild initTemplates txsHex).1 ∧
    (getBundleStatsBuild (runOps initTemplates ops) bundleHash blockNumber).1 =
      (getBundleStatsBuild initTemplates bundleHash blockNumber).1 ∧
    ∀ (b : Backend) (fb : Flashbot) (env : TransportEnv),
      (SendBundle b fb (runOps initTemplates ops) txsHex blockNumber env).1 =
        (SendBundle b fb initTemplates txsHex blockNumber env).1 ∧
      (CallBundle b fb (runOps initTemplates ops) txsHex env).1 =
        (CallBundle b fb initTemplates txsHex env).1 ∧
      (GetBundleStats b fb (runOps initTemplates ops) bundleHash blockNumber env).1 =
        (GetBundleStats b fb initTemplates bundleHash blockNumber env).1 := by
  have hinv := templatesInv_runOps ops templatesInv_init
  have hs : (sendBundleBuild (runOps initTemplates ops) txsHex blockNumber).1 =
      (sendBundleBuild initTemplates txsHex blockNumber).1 := by
    rw [sendBundleBuild_of_inv hinv, sendBundleBuild_of_inv templatesInv_init]
  have hc : (callBundleBuild (runOps initTemplates ops) txsHex).1 =
      (callBundleBuild initTemplates txsHex).1 := by
    rw [callBundleBuild_of_inv hinv, callBundleBuild_of_inv templatesInv_init]
  have hg : (getBundleStatsBuild (runOps initTemplates ops) bundleHash blockNumber).1 =
      (getBundleStatsBuild initTemplates bundleHash blockNumber).1 := by
    rw [getBundleStatsBuild_of_inv hinv, getBundleStatsBuild_of_inv templatesInv_init]
  exact ⟨hs, hc, hg, fun b fb env =>
    ⟨SendBundle_fst_congr b fb env hs, CallBundle_fst_congr b fb env hc,
     GetBundleStats_fst_congr b fb env hg⟩⟩

/-! ### C2, C7, C8: the response classifier -/

/-- The first-transaction detail `parseResp` appends whenever the decoded
result sequence is non-empty. -/
def resultSuffix (rs : List TxResult) : String :=
  match rs with
  | [] => ""
  | r0 :: _ =>
    " Result:" ++ r0.error ++ " , Revert:" ++ r0.revert ++ ", GasUsed:" ++
      toString r0.gasUsed

/-- C2: for every decoded response whose top-level error code is 0 and whose
transaction-result sequence is non-empty with a first element carrying a
non-empty error string, `parseResp` fails with the error built from that
first transaction's error string, revert reason and gas used, the overall
relay error fields, and the caller-supplied block number; the conclusion does
not mention `rest`, so the outcome is independent of all later entries. -/
theorem parseResp_first_tx_error (b : Backend) (resp : String) (blockNum : Nat)
    (rr : Response) (r0 : TxResult) (rest : List TxResult)
    (hu : b.unmarshalResponse resp = .ok rr)
    (hcode : rr.error.code = 0)
    (hres : rr.result.results = r0 :: rest)
    (herr : r0.error ≠ "") :
    parseResp b resp blockNum = .error
      ("flashbot request returned an error:" ++ errorShow rr.error ++ "," ++
        rr.error.message ++ " block:" ++ toString blockNum ++
        " Result:" ++ r0.error ++ " , Revert:" ++ r0.revert ++
        ", GasUsed:" ++ toString r0.gasUsed) := by
  simp [parseResp, hu, hres, hcode, herr]

/-- The decoded response of the C2 witness: relay error code 0, first
transaction failed, a second transaction present. -/
def rrExec : Response :=
  { error := ⟨0, "m"⟩,
    result :=
      { bundleGasPrice := "1", bundleHash := "0xabc", metadata := ⟨"", "", ""⟩,
        results :=
          [{ defaultTxResult with
              error := "insufficient funds", revert := "out of gas",
              gasUsed := 21000 },
           { defaultTxResult with error := "other", gasUsed := 5 }] } }

/-- A backend decoding every body to `rrExec`. -/
def bExec : Backend := { bW with unmarshalResponse := fun _ => .ok rrExec }

/-- C2 (witness): concrete evaluation of the classifier on `rrExec`. -/
theorem parseResp_first_tx_error_witness :
    parseResp bExec "resp" 100 = .error
      ("flashbot request returned an error:" ++ errorShow rrExec.error ++ "," ++
        rrExec.error.message ++ " block:" ++ toString 100 ++
        " Result:" ++ "insufficient funds" ++ " , Revert:" ++ "out of gas" ++
        ", GasUsed:" ++ toString 21000) :=
  parseResp_first_tx_error bExec "resp" 100 rrExec
    { defaultTxResult with
      error := "insufficient funds", revert := "out of gas", gasUsed := 21000 }
    [{ defaultTxResult with error := "other", gasUsed := 5 }]
    rfl rfl rfl (by decide)

/-- C7: for every decoded response whose top-level error code is non-zero,
`parseResp` fails with the error carrying that code and message (plus the
first transaction's details when the sequence is non-empty), whatever the
transaction-result sequence contains. -/
theorem parseResp_relay_error (b : Backend) (resp : String) (blockNum : Nat)
    (rr : Response)
    (hu : b.unmarshalResponse resp = .ok rr)
    (hcode : rr.error.code ≠ 0) :
    parseResp b resp blockNum = .error
      ("flashbot request returned an error:" ++ errorShow rr.error ++ "," ++
        rr.error.message ++ " block:" ++ toString blockNum ++
        resultSuffix rr.result.results) := by
  rcases hres : rr.result.results with _ | ⟨r0, rest⟩ <;>
    simp [parseResp, hu, hres, hcode, resultSuffix, String.append_assoc]

/-- The decoded response of the C7 witness: relay error code -32000 with a
non-empty, non-failing transaction sequence. -/
def rrRelay : Response :=
  { error := ⟨-32000, "invalid request"⟩,
    result :=
      { bundleGasPrice := "", bundleHash := "", metadata := ⟨"", "", ""⟩,
        results := [defaultTxResult] } }

/-- A backend decoding every body to `rrRelay`. -/
def bRelay : Backend := { bW with unmarshalResponse := fun _ => .ok rrRelay }

/-- C7 (witness): concrete evaluation of the classifier on `rrRelay`. -/
theorem parseResp_relay_error_witness :
    parseResp bRelay "resp" 42 = .error
      ("flashbot request returned an error:" ++ errorShow rrRelay.error ++ "," ++
        rrRelay.error.message ++ " block:" ++ toString 42 ++
        resultSuffix rrRelay.result.results) :=
  parseResp_relay_error bRelay "resp" 42 rrRelay rfl (by decide)

/-- C8: for every decoded response with top-level error code 0 and an empty
transaction-result sequence, `parseResp` succeeds with the full decoded
result. -/
theorem parseResp_success (b : Backend) (resp : String) (blockNum : Nat)
    (rr : Response)
    (hu : b.unmarshalResponse resp = .ok rr)
    (hcode : rr.error.code = 0)
    (hres : rr.result.results = []) :
    parseResp b resp blockNum = .ok rr := by
  simp [parseResp, hu, hres, hcode]

/-- The decoded response of the C8 witness: no relay error, empty result
sequence. -/
def rrOk : Response :=
  { error := ⟨0, ""⟩,
    result :=
      { bundleGasPrice := "7", bundleHash := "0xabc", metadata := ⟨"", "", ""⟩,
        results := [] } }

/-- A backend decoding every body to `rrOk`. -/
def bOk : Backend := { bW with unmarshalResponse := fun _ => .ok rrOk }

/-- C8 (witness): concrete evaluation of the classifier on `rrOk`. -/
theorem parseResp_success_witness : parseResp bOk "resp" 100 = .ok rrOk :=
  parseResp_success bOk "resp" 100 rrOk rfl rfl rfl

/-! ### C3, C5, C10: failures surfaced before any transport invocation -/

theorem signPayload_none_key (b : Backend) (fb : Flashbot) (p : String)
    (hk : fb.prvKey = none) : signPayload b fb p = .error "private key is not set" := by
  rcases hpa : fb.publicAddr with _ | addr <;> simp [signPayload, hk, hpa]

theorem req_config_error (b : Backend) (enc : Request → String) (fb : Flashbot)
    (r : Request) (url : String) (env : TransportEnv)
    (hm : ∀ r', b.marshal r' = .ok (enc r'))
    (hurl : url = "") (h1 : fb.netID ≠ 1) (h5 : fb.netID ≠ 5) :
    req b fb r url env =
      (.error (wrap ("network id not supported id:" ++ toString fb.netID)
        "get flashboat relay url"), 0) := by
  simp [req, hm, hurl, relayURLDefault, h1, h5]

theorem req_sign_error (b : Backend) (enc : Request → String) (fb : Flashbot)
    (r : Request) (url u : String) (env : TransportEnv)
    (hm : ∀ r', b.marshal r' = .ok (enc r'))
    (hu : (if url = "" then relayURLDefault fb.netID else .ok url) = .ok u)
    (hk : fb.prvKey = none) :
    req b fb r url env =
      (.error (wrap "private key is not set" "signing flashbot request"), 0) := by
  simp [req, hm, hu, signPayload_none_key b fb (enc r) hk]

theorem SendBundle_req_error {b : Backend} {fb : Flashbot} {st : Templates}
    {txsHex : List String} {blockNumber : Nat} {env : TransportEnv}
    {e : String} {n : Nat}
    (h : req b fb (sendBundleBuild st txsHex blockNumber).1 fb.url env = (.error e, n)) :
    SendBundle b fb st txsHex blockNumber env =
      (.error (wrap e "flashbot send request"),
        (sendBundleBuild st txsHex blockNumber).2, n) := by
  simp [SendBundle, h]

theorem CallBundle_req_error {b : Backend} {fb : Flashbot} {st : Templates}
    {txsHex : List String} {env : TransportEnv} {e : String} {n : Nat}
    (h : req b fb (callBundleBuild st txsHex).1 fb.url env = (.error e, n)) :
    CallBundle b fb st txsHex env =
      (.error (wrap e "flashbot call request"), (callBundleBuild st txsHex).2, n) := by
  simp [CallBundle, h]

theorem GetBundleStats_req_error {b : Backend} {fb : Flashbot} {st : Templates}
    {bundleHash : String} {blockNumber : Nat} {env : TransportEnv}
    {e : String} {n : Nat}
    (h : req b fb (getBundleStatsBuild st bundleHash blockNumber).1 fb.url env =
      (.error e, n)) :
    GetBundleStats b fb st bundleHash blockNumber env =
      (.error (wrap e "flashbot call request"),
        (getBundleStatsBuild st bundleHash blockNumber).2, n) := by
  simp [GetBundleStats, h]

/-- C3: `relayURLDefault` maps network id 1 to the mainnet relay and 5 to the
Goerli relay and rejects every other id with the unsupported-network error;
when the client has no explicit relay URL, each of the three public
operations surfaces that error (wrapped by its own context) with zero
transport invocations. -/
theorem relayURLDefault_table_and_ops :
    relayURLDefault 1 = .ok "https://relay.flashbots.net" ∧
    relayURLDefault 5 = .ok "https://relay-goerli.flashbots.net" ∧
    (∀ id : Int, id ≠ 1 → id ≠ 5 →
      relayURLDefault id = .error ("network id not supported id:" ++ toString id)) ∧
    ∀ (b : Backend) (enc : Request → String) (fb : Flashbot) (st : Templates)
      (env : TransportEnv) (txsHex : List String) (blockNumber : Nat)
      (bundleHash : String),
      (∀ r', b.marshal r' = .ok (enc r')) →
      fb.url = "" → fb.netID ≠ 1 → fb.netID ≠ 5 →
      SendBundle b fb st txsHex blockNumber env =
        (.error (wrap (wrap ("network id not supported id:" ++ toString fb.netID)
          "get flashboat relay url") "flashbot send request"),
          (sendBundleBuild st txsHex blockNumber).2, 0) ∧
      CallBundle b fb st txsHex env =
        (.error (wrap (wrap ("network id not supported id:" ++ toString fb.netID)
          "get flashboat relay url") "flashbot call request"),
          (callBundleBuild st txsHex).2, 0) ∧
      GetBundleStats b fb st bundleHash blockNumber env =
        (.error (wrap (wrap ("network id not supported id:" ++ toString fb.netID)
          "get flashboat relay url") "flashbot call request"),
          (getBundleStatsBuild st bundleHash blockNumber).2, 0) := by
  refine ⟨rfl, rfl, ?_, ?_⟩
  · intro id h1 h5
    simp [relayURLDefault, h1, h5]
  · intro b enc fb st env txsHex blockNumber bundleHash hm hurl h1 h5
    exact ⟨SendBundle_req_error (req_config_error b enc fb _ fb.url env hm hurl h1 h5),
      CallBundle_req_error (req_config_error b enc fb _ fb.url env hm hurl h1 h5),
      GetBundleStats_req_error (req_config_error b enc fb _ fb.url env hm hurl h1 h5)⟩

/-- A client with an unsupported network id and no relay URL. -/
def fbNoUrl : Flashbot := (New bW 9999 (some keyW) "").1

/-- C3 (witness): at network id 9999 with no configured URL, the table
rejects the id and `SendBundle` surfaces the error with zero transport
invocations. -/
theorem relayURLDefault_table_and_ops_witness :
    relayURLDefault 9999 = .error "network id not supported id:9999" ∧
    SendBundle bW fbNoUrl initTemplates ["0x01"] 100 envDown =
      (.error "flashbot send request: get flashboat relay url: network id not supported id:9999",
        (sendBundleBuild initTemplates ["0x01"] 100).2, 0) := by
  have h := relayURLDefault_table_and_ops
  refine ⟨h.2.2.1 9999 (by decide) (by decide), ?_⟩
  have h2 := (h.2.2.2 bW (fun _ => "payload") fbNoUrl initTemplates envDown
    ["0x01"] 100 "" (fun r' => rfl) rfl (by decide) (by decide)).1
  simpa [wrap] using h2

theorem ops_sign_error (b : Backend) (enc : Request → String)
    (fb : Flashbot) (st : Templates) (env : TransportEnv) (u : String)
    (txsHex : List String) (blockNumber : Nat) (bundleHash : String)
    (hm : ∀ r', b.marshal r' = .ok (enc r'))
    (hu : (if fb.url = "" then relayURLDefault fb.netID else .ok fb.url) = .ok u)
    (hk : fb.prvKey = none) :
    SendBundle b fb st txsHex blockNumber env =
      (.error (wrap (wrap "private key is not set" "signing flashbot request")
        "flashbot send request"), (sendBundleBuild st txsHex blockNumber).2, 0) ∧
    CallBundle b fb st txsHex env =
      (.error (wrap (wrap "private key is not set" "signing flashbot request")
        "flashbot call request"), (callBundleBuild st txsHex).2, 0) ∧
    GetBundleStats b fb st bundleHash blockNumber env =
      (.error (wrap (wrap "private key is not set" "signing flashbot request")
        "flashbot call request"), (getBundleStatsBuild st bundleHash blockNumber).2, 0) :=
  ⟨SendBundle_req_error (req_sign_error b enc fb _ fb.url u env hm hu hk),
   CallBundle_req_error (req_sign_error b enc fb _ fb.url u env hm hu hk),
   GetBundleStats_req_error (req_sign_error b enc fb _ fb.url u env hm hu hk)⟩

/-- C5: with no private key configured, signing fails with the no-key error
and each of the three public operations surfaces it (wrapped by its own
context) with zero transport invocations — no unauthenticated request is
ever sent. -/
theorem ops_fail_without_key (b : Backend) (enc : Request → String)
    (fb : Flashbot) (st : Templates) (env : TransportEnv) (u : String)
    (txsHex : List String) (blockNumber : Nat) (bundleHash : String)
    (hm : ∀ r', b.marshal r' = .ok (enc r'))
    (hu : (if fb.url = "" then relayURLDefault fb.netID else .ok fb.url) = .ok u)
    (hk : fb.prvKey = none) :
    SendBundle b fb st txsHex blockNumber env =
      (.error (wrap (wrap "private key is not set" "signing flashbot request")
        "flashbot send request"), (sendBundleBuild st txsHex blockNumber).2, 0) ∧
    CallBundle b fb st txsHex env =
      (.error (wrap (wrap "private key is not set" "signing flashbot request")
        "flashbot call request"), (callBundleBuild st txsHex).2, 0) ∧
    GetBundleStats b fb st bundleHash blockNumber env =
      (.error (wrap (wrap "private key is not set" "signing flashbot request")
        "flashbot call request"), (getBundleStatsBuild st bundleHash blockNumber).2, 0) :=
  ops_sign_error b enc fb st env u txsHex blockNumber bundleHash hm hu hk

/-- A keyless client with an explicit relay URL. -/
def fbNoKey : Flashbot := (New bW 1 none "http://relay.test").1

/-- C5 (witness): the keyless client's `SendBundle` fails with the no-key
error and performs zero transport invocations. -/
theorem ops_fail_without_key_witness :
    SendBundle bW fbNoKey initTemplates ["0x01"] 100 envDown =
      (.error "flashbot send request: signing flashbot request: private key is not set",
        (sendBundleBuild initTemplates ["0x01"] 100).2, 0) := by
  have h := (ops_fail_without_key bW (fun _ => "payload") fbNoKey initTemplates
    envDown "http://relay.test" ["0x01"] 100 "" (fun r' => rfl) rfl rfl).1
  simpa [wrap] using h

/-- C10: constructing the client with a nil private key succeeds — `New`
returns the client and a nil error, with no key material set — and the
missing-key failure is deferred to the public operations, where it surfaces
from the signing step with zero transport invocations. -/
theorem new_nil_key_deferred (b : Backend) (netID : Int) (url : String) :
    New b netID none url =
      ({ netID := netID, prvKey := none, publicAddr := none, url := url }, .ok ()) ∧
    ∀ (enc : Request → String) (st : Templates) (env : TransportEnv) (u : String)
      (txsHex : List String) (blockNumber : Nat) (bundleHash : String),
      (∀ r', b.marshal r' = .ok (enc r')) →
      (if url = "" then relayURLDefault netID else .ok url) = .ok u →
      SendBundle b (New b netID none url).1 st txsHex blockNumber env =
        (.error (wrap (wrap "private key is not set" "signing flashbot request")
          "flashbot send request"), (sendBundleBuild st txsHex blockNumber).2, 0) ∧
      CallBundle b (New b netID none url).1 st txsHex env =
        (.error (wrap (wrap "private key is not set" "signing flashbot request")
          "flashbot call request"), (callBundleBuild st txsHex).2, 0) ∧
      GetBundleStats b (New b netID none url).1 st bundleHash blockNumber env =
        (.error (wrap (wrap "private key is not set" "signing flashbot request")
          "flashbot call request"), (getBundleStatsBuild st bundleHash blockNumber).2, 0) := by
  refine ⟨rfl, ?_⟩
  intro enc st env u txsHex blockNumber bundleHash hm hu
  exact ops_sign_error b enc (New b netID none url).1 st env u
    txsHex blockNumber bundleHash hm hu rfl

/-- C10 (witness): `New` with no key at network 1 and an explicit URL, then a
first `CallBundle`, which fails from signing with zero transport
invocations. -/
theorem new_nil_key_deferred_witness :
    New bW 1 none "http://relay.test" =
      ({ netID := 1, prvKey := none, publicAddr := none, url := "http://relay.test" },
        .ok ()) ∧
    CallBundle bW (New bW 1 none "http://relay.test").1 initTemplates ["0x02"] envDown =
      (.error "flashbot call request: signing flashbot request: private key is not set",
        (callBundleBuild initTemplates ["0x02"]).2, 0) := by
  have h := new_nil_key_deferred bW 1 "http://relay.test"
  refine ⟨h.1, ?_⟩
  have h2 := (h.2 (fun _ => "payload") initTemplates envDown "http://relay.test"
    ["0x02"] 100 "" (fun r' => rfl) rfl).2.1
  simpa [wrap] using h2

/-! ### C6: non-2xx HTTP responses -/

/-- A transport answering 500 with a failing body read. -/
def envReadFail : TransportEnv :=
  { send := fun _ _ _ => .ok
      { statusCode := 500, status := "500 Internal Server Error",
        readBody := .error "read failed", readBody2 := .ok "",
        closeBody := .ok () } }

/-- C6 (counterexample): the claim says every non-2xx response yields an
error carrying the status and the readable body bytes, degrading to a
status-only error when the body read fails.  But the first body read happens
before the status check: when it fails on a 500 response, `req` returns the
read error, which carries neither the status nor a body — it is not the
status-only form. -/
theorem req_non2xx_read_failure_counterexample :
    req bW fbW RequestSend "http://relay.test" envReadFail =
      (.error "reading flashbot reply: read failed", 1) ∧
    (req bW fbW RequestSend "http://relay.test" envReadFail).1 ≠
      .error "bad response status 500 Internal Server Error" := by
  exact ⟨by decide, by decide⟩

/-- C6 (amended): for every non-2xx response, exactly one POST is issued and
`req` fails; when the initial body read succeeds the error carries the
status and the readable body bytes (the error-branch re-read prepended to
the already-read body), a failing error-branch re-read degrades to a
status-only error, and a failing initial body read yields a read error
carrying only its cause. -/
theorem req_non2xx (b : Backend) (fb : Flashbot) (r : Request)
    (url u p sp : String) (env : TransportEnv) (resp : HttpResp)
    (hm : b.marshal r = .ok p)
    (hu : (if url = "" then relayURLDefault fb.netID else .ok url) = .ok u)
    (hs : signPayload b fb p = .ok sp)
    (hsend : env.send u p sp = .ok resp)
    (hst : resp.statusCode / 100 ≠ 2) :
    (∀ res rb, resp.readBody = .ok res → resp.readBody2 = .ok rb →
      req b fb r url env =
        (.error ("bad response resp status:" ++ resp.status ++ "  respBody:" ++
          rb ++ res ++ " reqMethod:" ++ r.method), 1)) ∧
    (∀ res e2, resp.readBody = .ok res → resp.readBody2 = .error e2 →
      req b fb r url env = (.error ("bad response status " ++ resp.status), 1)) ∧
    (∀ e1, resp.readBody = .error e1 →
      req b fb r url env = (.error (wrap e1 "reading flashbot reply"), 1)) := by
  refine ⟨?_, ?_, ?_⟩
  · intro res rb h1 h2
    simp [req, hm, hu, hs, hsend, h1, h2, hst]
  · intro res e2 h1 h2
    simp [req, hm, hu, hs, hsend, h1, h2, hst]
  · intro e1 h1
    simp [req, hm, hu, hs, hsend, h1]

/-- A transport answering 500 with body `"relay overloaded"`; the error-path
re-read of the already-consumed body yields the empty string. -/
def env500 : TransportEnv :=
  { send := fun _ _ _ => .ok
      { statusCode := 500, status := "500 Internal Server Error",
        readBody := .ok "relay overloaded", readBody2 := .ok "",
        closeBody := .ok () } }

/-- C6 (witness): HTTP 500 with body "relay overloaded" yields the error
carrying status 500 and that body text, with exactly one POST. -/
theorem req_non2xx_witness :
    req bW fbW RequestSend "http://relay.test" env500 =
      (.error ("bad response resp status:" ++ "500 Internal Server Error" ++
        "  respBody:" ++ "" ++ "relay overloaded" ++ " reqMethod:" ++
        "eth_sendBundle"), 1) :=
  (req_non2xx bW fbW RequestSend "http://relay.test" "http://relay.test"
    "payload"
    (addressHex bW.keccak256 (bW.pubkeyToAddress keyW) ++ ":" ++ hexEncodeBytes [1, 2])
    env500
    { statusCode := 500, status := "500 Internal Server Error",
      readBody := .ok "relay overloaded", readBody2 := .ok "",
      closeBody := .ok () }
    rfl rfl rfl rfl (by decide)).1 "relay overloaded" "" rfl rfl

/-! ### C9: explicit relay URL -/

theorem req_explicit_url (b : Backend) (fb fb' : Flashbot) (r : Request)
    (url : String) (env env' : TransportEnv)
    (hurl : url ≠ "")
    (hk : fb.prvKey = fb'.prvKey) (ha : fb.publicAddr = fb'.publicAddr)
    (hsend : ∀ p sp, env.send url p sp = env'.send url p sp) :
    req b fb r url env = req b fb' r url env' := by
  obtain ⟨n, k, ad, u⟩ := fb
  obtain ⟨n', k', ad', u'⟩ := fb'
  simp only at hk ha
  subst hk
  subst ha
  simp only [req]
  rcases hmm : b.marshal r with e | p
  · rfl
  · simp only [if_neg hurl]
    have hsp : signPayload b ⟨n, k, ad, u⟩ p = signPayload b ⟨n', k, ad, u'⟩ p := rfl
    rw [hsp]
    rcases hss : signPayload b ⟨n', k, ad, u'⟩ p with e | sp
    · rfl
    · simp only [hsend]

theorem SendBundle_congr_req {b : Backend} {fb fb' : Flashbot} {st : Templates}
    {txsHex : List String} {blockNumber : Nat} {env env' : TransportEnv}
    (h : req b fb (sendBundleBuild st txsHex blockNumber).1 fb.url env =
      req b fb' (sendBundleBuild st txsHex blockNumber).1 fb'.url env') :
    SendBundle b fb st txsHex blockNumber env =
      SendBundle b fb' st txsHex blockNumber env' := by
  simp only [SendBundle, h]

theorem CallBundle_congr_req {b : Backend} {fb fb' : Flashbot} {st : Templates}
    {txsHex : List String} {env env' : TransportEnv}
    (h : req b fb (callBundleBuild st txsHex).1 fb.url env =
      req b fb' (callBundleBuild st txsHex).1 fb'.url env') :
    CallBundle b fb st txsHex env = CallBundle b fb' st txsHex env' := by
  simp only [CallBundle, h]

theorem GetBundleStats_congr_req {b : Backend} {fb fb' : Flashbot} {st : Templates}
    {bundleHash : String} {blockNumber : Nat} {env env' : TransportEnv}
    (h : req b fb (getBundleStatsBuild st bundleHash blockNumber).1 fb.url env =
      req b fb' (getBundleStatsBuild st bundleHash blockNumber).1 fb'.url env') :
    GetBundleStats b fb st bundleHash blockNumber env =
      GetBundleStats b fb' st bundleHash blockNumber env' := by
  simp only [GetBundleStats, h]

/-- C9: when the configured relay URL is non-empty, every operation uses it
verbatim and the network-id default table is never consulted: the outcome of
each public operation is unchanged under any change of the network id (so an
unsupported id like 9999 can never produce the unsupported-network error)
and depends on the transport only through its behaviour at that URL. -/
theorem explicit_url_ops (b : Backend) (fb : Flashbot) (st : Templates)
    (env env' : TransportEnv) (a a' : Int) (txsHex : List String)
    (blockNumber : Nat) (bundleHash : String)
    (hurl : fb.url ≠ "")
    (hsend : ∀ p sp, env.send fb.url p sp = env'.send fb.url p sp) :
    SendBundle b { fb with netID := a } st txsHex blockNumber env =
      SendBundle b { fb with netID := a' } st txsHex blockNumber env' ∧
    CallBundle b { fb with netID := a } st txsHex env =
      CallBundle b { fb with netID := a' } st txsHex env' ∧
    GetBundleStats b { fb with netID := a } st bundleHash blockNumber env =
      GetBundleStats b { fb with netID := a' } st bundleHash blockNumber env' :=
  ⟨SendBundle_congr_req
      (req_explicit_url b { fb with netID := a } { fb with netID := a' } _
        fb.url env env' hurl rfl rfl hsend),
   CallBundle_congr_req
      (req_explicit_url b { fb with netID := a } { fb with netID := a' } _
        fb.url env env' hurl rfl rfl hsend),
   GetBundleStats_congr_req
      (req_explicit_url b { fb with netID := a } { fb with netID := a' } _
        fb.url env env' hurl rfl rfl hsend)⟩

/-- C9 (witness): with the explicit URL `"http://relay.test"`, the
unsupported network id 9999 and the supported id 1 produce identical
outcomes on every operation. -/
theorem explicit_url_ops_witness :
    SendBundle bW { fbW with netID := 9999 } initTemplates ["0x01"] 100 env500 =
      SendBundle bW { fbW with netID := 1 } initTemplates ["0x01"] 100 env500 ∧
    CallBundle bW { fbW with netID := 9999 } initTemplates ["0x01"] env500 =
      CallBundle bW { fbW with netID := 1 } initTemplates ["0x01"] env500 ∧
    GetBundleStats bW { fbW with netID := 9999 } initTemplates "0xabc" 100 env500 =
      GetBundleStats bW { fbW with netID := 1 } initTemplates "0xabc" 100 env500 :=
  explicit_url_ops bW fbW initTemplates env500 env500 9999 1 ["0x01"] 100 "0xabc"
    (by decide) (fun p sp => rfl)

/-! ### C4: the `X-Flashbots-Signature` header -/

/-- Number of `':'` characters in a string. -/
def colonCount (s : String) : Nat := s.data.count ':'

theorem getD_hextable_ne_colon {m : Nat} (h : m < 16) :
    hextable.getD m '0' ≠ ':' := by
  interval_cases m <;> decide

theorem hexDigit_ne_colon (k : Nat) : hexDigit k ≠ ':' :=
  getD_hextable_ne_colon (Nat.mod_lt _ (by norm_num))

theorem checksumChar_hexDigit_ne_colon {m : Nat} (h : m < 16) (nib : Nat) :
    checksumChar (hextable.getD m '0') nib ≠ ':' := by
  interval_cases m <;> (unfold checksumChar; split <;> decide)

theorem colon_not_mem_flatMap (bs : List Nat) :
    ':' ∉ bs.flatMap byteHexChars := by
  intro h
  rw [List.mem_flatMap] at h
  obtain ⟨a, -, hc⟩ := h
  simp only [byteHexChars, List.mem_cons, List.not_mem_nil, or_false] at hc
  rcases hc with hc | hc <;> exact hexDigit_ne_colon _ hc.symm

theorem mem_checksumAux {hash : List Nat} {c : Char} :
    ∀ {j : Nat} {cs : List Char}, c ∈ checksumAux hash j cs →
      ∃ c₀ ∈ cs, ∃ nib, c = checksumChar c₀ nib := by
  intro j cs
  induction cs generalizing j with
  | nil => intro h; simp [checksumAux] at h
  | cons c₀ cs ih =>
    intro h
    rw [checksumAux] at h
    rcases List.mem_cons.mp h with h | h
    · exact ⟨c₀, List.mem_cons_self c₀ cs, _, h⟩
    · obtain ⟨d, hd, nib, hnib⟩ := ih h
      exact ⟨d, List.mem_cons_of_mem c₀ hd, nib, hnib⟩

theorem colonCount_hexEncodeBytes (bs : List Nat) :
    colonCount (hexEncodeBytes bs) = 0 := by
  show List.count ':' ('0' :: 'x' :: bs.flatMap byteHexChars) = 0
  rw [List.count_cons, List.count_cons, List.count_eq_zero.mpr (colon_not_mem_flatMap bs)]
  decide

theorem colonCount_addressHex (keccak : List Nat → List Nat) (addr : List Nat) :
    colonCount (addressHex keccak addr) = 0 := by
  show List.count ':'
    ('0' :: 'x' :: checksumAux (keccak ((addr.flatMap byteHexChars).map Char.toNat)) 0
      (addr.flatMap byteHexChars)) = 0
  rw [List.count_cons, List.count_cons]
  have hmem : ':' ∉ checksumAux (keccak ((addr.flatMap byteHexChars).map Char.toNat)) 0
      (addr.flatMap byteHexChars) := by
    intro h
    obtain ⟨c₀, hc₀, nib, hnib⟩ := mem_checksumAux h
    rw [List.mem_flatMap] at hc₀
    obtain ⟨a, -, hc⟩ := hc₀
    simp only [byteHexChars, List.mem_cons, List.not_mem_nil, or_false] at hc
    rcases hc with hc | hc <;>
      (subst hc; exact checksumChar_hexDigit_ne_colon (Nat.mod_lt _ (by norm_num)) nib hnib.symm)
  rw [List.count_eq_zero.mpr hmem]
  decide

/-- C4: for a client whose keys were set from a private key, `signPayload`
succeeds on every payload (whenever the external ECDSA signer succeeds) and
returns `<address hex>:<signature hex>`, where the address segment is
exactly the checksummed hex of the address derived from that key, and the
header contains exactly one `':'` separator. -/
theorem signPayload_header (b : Backend) (fb0 : Flashbot) (key : PrivateKey)
    (payload : String) (sig : List Nat)
    (hsig : b.ecdsaSign (textHash b.keccak256
      (strBytes (hexEncodeBytes (b.keccak256 (strBytes payload))))) key = .ok sig) :
    signPayload b (SetKeys b fb0 key).1 payload =
      .ok (addressHex b.keccak256 (b.pubkeyToAddress key) ++ ":" ++ hexEncodeBytes sig) ∧
    colonCount (addressHex b.keccak256 (b.pubkeyToAddress key) ++ ":" ++
      hexEncodeBytes sig) = 1 := by
  constructor
  · simp [signPayload, SetKeys, hsig]
  · show List.count ':'
      ((addressHex b.keccak256 (b.pubkeyToAddress key)).data ++ [':'] ++
        (hexEncodeBytes sig).data) = 1
    rw [List.count_append, List.count_append]
    have h1 := colonCount_addressHex b.keccak256 (b.pubkeyToAddress key)
    have h2 := colonCount_hexEncodeBytes sig
    unfold colonCount at h1 h2
    rw [h1, h2]
    decide

/-- C4 (witness): concrete evaluation of the header for the fixture client,
with exactly one colon. -/
theorem signPayload_header_witness :
    signPayload bW fbW "payload" =
      .ok (addressHex bW.keccak256 (bW.pubkeyToAddress keyW) ++ ":" ++
        hexEncodeBytes [1, 2]) ∧
    colonCount (addressHex bW.keccak256 (bW.pubkeyToAddress keyW) ++ ":" ++
      hexEncodeBytes [1, 2]) = 1 :=
  signPayload_header bW
    { netID := 1, prvKey := none, publicAddr := none, url := "http://relay.test" }
    keyW "payload" [1, 2] rfl

end flashbot
